import Mathlib

/-!
Verification of the penguin species classification service
(`app/main.py`) and its training script (`train_model_advanced.py`).

Shallow embedding conventions:
* Python floats carrying measurements and confidences appear only as
  literals and in order comparisons, never in arithmetic, so they are
  embedded as exact rationals (`ℚ`).
* The FastAPI/pydantic boundary parses a JSON body into the
  `PenguinFeatures` model; pydantic's default configuration silently
  ignores extra JSON fields, which we model with an explicit request
  record carrying the possible extra `sex` field.
* The endpoint body is wrapped in `try/except`; since the body is a
  total pure computation, the handler always returns a successful
  response, which we embed as `Except ApiError PredictionResponse`
  that is always `.ok`.  The error constructors of `ApiError` are the
  spec's error taxonomy (the code itself never raises them); they are
  needed to state the claims about error behaviour.
-/

/-- The pydantic request model of `app/main.py` (class `PenguinFeatures`):
exactly four required numeric measurements. -/
structure PenguinFeatures where
  bill_length_mm : ℚ
  bill_depth_mm : ℚ
  flipper_length_mm : ℚ
  body_mass_g : ℚ
deriving DecidableEq

/-- The pydantic response model of `app/main.py` (class `PredictionResponse`). -/
structure PredictionResponse where
  species : String
  confidence : ℚ
  message : String
deriving DecidableEq

/-- Error taxonomy of the spec (section 7).  None of these is ever raised by
the code in `app/main.py`; the constructors exist so that the claims about
`DimensionMismatch` and `UnknownCategory` can be stated.
`internalServerError` stands for the HTTP 500 of the handler's except-branch. -/
inductive ApiError
  | dimensionMismatch
  | unknownCategory
  | internalServerError
deriving DecidableEq

/-- The mock prediction logic of `predict_penguin_species` in `app/main.py`
(lines 66-80): a hard-coded if/else chain on two of the four fields. -/
def predict_penguin_species (f : PenguinFeatures) : PredictionResponse :=
  if f.bill_length_mm > 45 then
    { species := "Gentoo", confidence := mkRat 85 100, message := "Prediction successful" }
  else if f.bill_depth_mm > 18 then
    { species := "Adelie", confidence := mkRat 78 100, message := "Prediction successful" }
  else
    { species := "Chinstrap", confidence := mkRat 82 100, message := "Prediction successful" }

/-- The `/predict` endpoint as seen by a caller: the handler's body never
throws, so the `try/except` wrapper always takes the success path. -/
def predictEndpoint (f : PenguinFeatures) : Except ApiError PredictionResponse :=
  .ok (predict_penguin_species f)

/-- The numeric feature vector a `PenguinFeatures` record amounts to:
the four measurement fields in declaration order.  The serving path never
builds a longer vector - there is no encoding step in `app/main.py`. -/
def toVector (f : PenguinFeatures) : List ℚ :=
  [f.bill_length_mm, f.bill_depth_mm, f.flipper_length_mm, f.body_mass_g]

/-- A raw JSON request body for `/predict`: the four required numbers plus
an optional extra `sex` member (any string).  The boundary layer is
pydantic with default configuration, which ignores members not declared on
the model. -/
structure PredictRequest where
  bill_length_mm : ℚ
  bill_depth_mm : ℚ
  flipper_length_mm : ℚ
  body_mass_g : ℚ
  sex : Option String
deriving DecidableEq

/-- Pydantic's parse of a request body into `PenguinFeatures`: the model
declares no `sex` field, so an extra `sex` member is dropped silently. -/
def parseFeatures (r : PredictRequest) : PenguinFeatures :=
  { bill_length_mm := r.bill_length_mm
    bill_depth_mm := r.bill_depth_mm
    flipper_length_mm := r.flipper_length_mm
    body_mass_g := r.body_mass_g }

/-- Full handling of a `/predict` request: boundary parse, then endpoint. -/
def handlePredict (r : PredictRequest) : Except ApiError PredictionResponse :=
  predictEndpoint (parseFeatures r)

/-- The hand-written feature column list of `train_model_advanced.py`
(lines 20-23), persisted verbatim into `model_info.json` as
`feature_columns`. -/
def featureColumnsLiteral : List String :=
  ["bill_length_mm", "bill_depth_mm", "flipper_length_mm", "body_mass_g", "year",
   "sex_female", "sex_male", "island_Biscoe", "island_Dream", "island_Torgersen"]

/-- Modelled from the spec: the artifact's species label list ("the distinct
penguin species from training").  The artifact file `app/data/model_info.json`
is generated at run time from the external seaborn dataset and is not part of
the repository's sources; the spec fixes its labels as the penguin species. -/
def artifactSpeciesLabels : List String :=
  ["Adelie", "Chinstrap", "Gentoo"]

deriving instance DecidableEq for Except

/-!
Embedding of `train_model_advanced.py`.

The script loads the penguins dataframe from the external seaborn
package (`sns.load_dataset("penguins")`), so the dataframe is an input
of the embedding: a list of `Row`s whose fields are `Option`-valued
(`none` models a missing value / NaN).  The external library calls that
the script makes after the data preparation - `train_test_split`,
`XGBClassifier.fit` and `.score` - are opaque-to-the-repository,
deterministic computations; they are embedded as an explicit `Backend`
record of pure functions that the pipeline is parameterised over.
-/

/-- One record of the loaded penguins dataframe.  `none` models NaN. -/
structure Row where
  species : Option String
  island : Option String
  bill_length_mm : Option ℚ
  bill_depth_mm : Option ℚ
  flipper_length_mm : Option ℚ
  body_mass_g : Option ℚ
  sex : Option String
  year : Option Int
deriving DecidableEq

/-- A row survives `df.dropna()` exactly when every column is present. -/
def rowComplete (r : Row) : Bool :=
  r.species.isSome && r.island.isSome && r.bill_length_mm.isSome &&
  r.bill_depth_mm.isSome && r.flipper_length_mm.isSome &&
  r.body_mass_g.isSome && r.sex.isSome && r.year.isSome

/-- The species label of a row (used after `dropna`, where it is present). -/
def rowSpecies (r : Row) : String :=
  r.species.getD ""

/-- The ascending order on strings that `numpy.unique` sorts by:
lexicographic comparison of the character sequences (code points). -/
def strDataLe (a b : String) : Prop :=
  a.data ≤ b.data

instance : DecidableRel strDataLe :=
  fun a b => inferInstanceAs (Decidable (a.data ≤ b.data))

instance : IsTotal String strDataLe :=
  ⟨fun a b => le_total a.data b.data⟩

instance : IsTrans String strDataLe :=
  ⟨fun _ _ _ h1 h2 => le_trans h1 h2⟩

instance : IsAntisymm String strDataLe :=
  ⟨fun a b h1 h2 => by
    cases a; cases b
    exact congrArg String.mk (le_antisymm h1 h2)⟩

/-- The distinct values of a list of strings in ascending order - the
behaviour of `numpy.unique`, which both `LabelEncoder.fit` and
`pd.get_dummies` column generation rely on. -/
def distinctSorted (l : List String) : List String :=
  List.insertionSort strDataLe l.dedup

/-- Column names of the dataframe after
`pd.get_dummies(df_encoded, columns=['sex', 'island'])`: the original
columns minus `sex` and `island` (kept in their original order), then one
indicator column per distinct `sex` value, then one per distinct `island`
value, each set in ascending value order. -/
def encodedColumns (df : List Row) : List String :=
  ["species", "bill_length_mm", "bill_depth_mm", "flipper_length_mm", "body_mass_g", "year"]
    ++ (distinctSorted (df.map (fun r => r.sex.getD ""))).map (fun v => "sex_" ++ v)
    ++ (distinctSorted (df.map (fun r => r.island.getD ""))).map (fun v => "island_" ++ v)

/-- The FeatureSchema as the spec words it: "the encoded column names
actually present after encoding the full cleaned dataset" - everything in
the encoded dataframe except the label column `species`.  This definition
follows the spec; it is compared against the hand-written
`featureColumnsLiteral` the code actually persists. -/
def specEnumeratedFeatureColumns (df : List Row) : List String :=
  (encodedColumns df).filter (fun c => c != "species")

/-- The numeric value of column `c` for row `r` in the encoded dataframe:
numeric columns pass through, an indicator column is 1 exactly when the
row's category matches the column's suffix, otherwise 0. -/
def encodedValue (r : Row) (c : String) : ℚ :=
  if c = "bill_length_mm" then r.bill_length_mm.getD 0
  else if c = "bill_depth_mm" then r.bill_depth_mm.getD 0
  else if c = "flipper_length_mm" then r.flipper_length_mm.getD 0
  else if c = "body_mass_g" then r.body_mass_g.getD 0
  else if c = "year" then ((r.year.getD 0 : Int) : ℚ)
  else if c = "sex_" ++ (r.sex.getD "") then 1
  else if c = "island_" ++ (r.island.getD "") then 1
  else 0

/-- `label_encoder.classes_` after `fit_transform(df['species'])`:
the distinct labels in ascending order (`numpy.unique`). -/
def speciesClasses (df : List Row) : List String :=
  distinctSorted (df.map rowSpecies)

/-- Errors of the training script.  `keyError` is the pandas KeyError that
`df_encoded[feature_columns]` raises when a listed column is absent -
the script's only failure point of its own.  `insufficientClasses` is the
spec's training-time error (section 7); the code never raises it, the
constructor exists so the claim about it can be stated. -/
inductive TrainError
  | keyError
  | insufficientClasses
deriving DecidableEq

/-- The metadata document persisted to `model_info.json`. -/
structure ModelInfo where
  feature_columns : List String
  species_classes : List String
  accuracy : ℚ
deriving DecidableEq

/-- The external ML library calls the script makes, as pure deterministic
functions: `train_test_split(X, y, test_size=0.2, random_state=42)`
(fixed seed, hence a function of its inputs), `XGBClassifier.fit` into a
model of type `M`, and `model.score`. -/
structure Backend (M : Type) where
  split : List (List ℚ) → List Nat →
    (List (List ℚ) × List (List ℚ) × List Nat × List Nat)
  fit : List (List ℚ) → List Nat → M
  score : M → List (List ℚ) → List Nat → ℚ

/-- What a training run leaves on disk: the saved model (`model.json`)
and the metadata (`model_info.json`). -/
structure TrainResult (M : Type) where
  model : M
  info : ModelInfo
deriving DecidableEq

/-- The body of `train_advanced_model` after the `dropna` line, operating
on the cleaned dataframe `df`: label-encode `df['species']`, one-hot
encode, select the hand-written `feature_columns` (KeyError when one is
missing), split, fit, score, and bundle the artifacts. -/
def trainOnCleaned {M : Type} (b : Backend M) (df : List Row) :
    Except TrainError (TrainResult M) :=
  let classes := speciesClasses df
  let y := df.map (fun r => classes.indexOf (rowSpecies r))
  if featureColumnsLiteral.all (fun c => (encodedColumns df).contains c) then
    let X := df.map (fun r => featureColumnsLiteral.map (encodedValue r))
    let s := b.split X y
    let model := b.fit s.1 s.2.2.1
    let accuracy := b.score model s.2.1 s.2.2.2
    .ok { model := model,
          info := { feature_columns := featureColumnsLiteral,
                    species_classes := classes,
                    accuracy := accuracy } }
  else
    .error .keyError

/-- `train_advanced_model` of `train_model_advanced.py`: drop incomplete
records, then run the rest of the pipeline on the cleaned dataframe. -/
def train_advanced_model {M : Type} (b : Backend M) (raw : List Row) :
    Except TrainError (TrainResult M) :=
  trainOnCleaned b (raw.filter rowComplete)

/-- A concrete backend instance used to evaluate the pipeline on concrete
datasets in witnesses and counterexamples (the claims under scrutiny do
not depend on the fitted model's content). -/
def backend0 : Backend Unit where
  split := fun X y => (X, X, y, y)
  fit := fun _ _ => ()
  score := fun _ _ _ => 0

/-- Convenience constructor for a complete row. -/
def mkRow (sp isl : String) (bl bd fl bm : ℚ) (sx : String) (yr : Int) : Row :=
  { species := some sp, island := some isl, bill_length_mm := some bl,
    bill_depth_mm := some bd, flipper_length_mm := some fl,
    body_mass_g := some bm, sex := some sx, year := some yr }

/-- Four complete rows, two species, both sexes, all three islands - a
cleaned dataset on which the training pipeline succeeds. -/
def dfBasic : List Row :=
  [mkRow "Adelie" "Biscoe" (mkRat 391 10) (mkRat 187 10) 181 3750 "female" 2007,
   mkRow "Gentoo" "Dream" (mkRat 461 10) (mkRat 149 10) 211 4500 "male" 2008,
   mkRow "Adelie" "Torgersen" (mkRat 402 10) 17 190 3900 "female" 2009,
   mkRow "Gentoo" "Biscoe" 47 15 215 5000 "male" 2007]

/-- A Gentoo row with a missing bill length: removed by `dropna`. -/
def incompleteGentooRow : Row :=
  { species := some "Gentoo", island := some "Dream", bill_length_mm := none,
    bill_depth_mm := some 17, flipper_length_mm := some 210,
    body_mass_g := some 4500, sex := some "male", year := some 2008 }

/-- `dfBasic` plus one incomplete row: cleans to exactly `dfBasic`. -/
def dfBasicPlusIncomplete : List Row :=
  dfBasic ++ [incompleteGentooRow]

/-- A dataset with an extra island category "Antarctica": the one-hot step
produces the indicator column `island_Antarctica`, which the hand-written
schema does not mention, while every hand-written column is still
present, so training succeeds. -/
def dfExtraIsland : List Row :=
  dfBasic ++ [mkRow "Chinstrap" "Antarctica" (mkRat 501 10) 17 200 3800 "female" 2008]

/-- A dataset whose cleaned version carries a single species label. -/
def dfOneClass : List Row :=
  [mkRow "Adelie" "Biscoe" (mkRat 391 10) (mkRat 187 10) 181 3750 "female" 2007,
   mkRow "Adelie" "Dream" (mkRat 385 10) 18 195 3650 "male" 2008,
   mkRow "Adelie" "Torgersen" (mkRat 402 10) 17 190 3900 "female" 2009,
   mkRow "Adelie" "Biscoe" 37 (mkRat 181 10) 178 3400 "male" 2007]

/-- Four complete Adelie rows (both sexes, all three islands) plus an
incomplete Gentoo row: its raw distinct species set is {Adelie, Gentoo},
the same as `dfBasic`'s, but after cleaning only Adelie remains. -/
def dfOnlyAdelieComplete : List Row :=
  [mkRow "Adelie" "Biscoe" (mkRat 391 10) (mkRat 187 10) 181 3750 "female" 2007,
   mkRow "Adelie" "Dream" (mkRat 385 10) 18 195 3650 "male" 2008,
   mkRow "Adelie" "Torgersen" (mkRat 402 10) 17 190 3900 "female" 2009,
   mkRow "Adelie" "Biscoe" 37 (mkRat 181 10) 178 3400 "male" 2007,
   incompleteGentooRow]

/-- The training result on `dfBasic` under `backend0`, written out. -/
def outBasic : TrainResult Unit :=
  { model := (),
    info := { feature_columns := featureColumnsLiteral,
              species_classes := ["Adelie", "Gentoo"],
              accuracy := 0 } }

/-- C10: the endpoint's response is exactly the three-way case split of the
mock: ("Gentoo", mkRat 85 100) when bill_length_mm > 45, otherwise ("Adelie", mkRat 78 100)
when bill_depth_mm > 18, otherwise ("Chinstrap", mkRat 82 100); no other species or
confidence is ever returned. -/
theorem C10_exact_branches (f : PenguinFeatures) :
    predict_penguin_species f =
      (if f.bill_length_mm > 45 then
        { species := "Gentoo", confidence := mkRat 85 100, message := "Prediction successful" }
      else if f.bill_depth_mm > 18 then
        { species := "Adelie", confidence := mkRat 78 100, message := "Prediction successful" }
      else
        { species := "Chinstrap", confidence := mkRat 82 100, message := "Prediction successful" }) :=
  rfl

/-- C9: two requests that agree on bill_length_mm and bill_depth_mm receive
the same response, whatever their flipper_length_mm and body_mass_g: the
mock never reads the last two measurements. -/
theorem C9_unused_features (f g : PenguinFeatures)
    (hl : f.bill_length_mm = g.bill_length_mm)
    (hd : f.bill_depth_mm = g.bill_depth_mm) :
    predict_penguin_species f = predict_penguin_species g := by
  unfold predict_penguin_species
  rw [hl, hd]

/-- Witness for C9 at concrete inputs: flipper length 181 vs 999 and body
mass 3750 vs 1 make no difference. -/
theorem C9_witness :
    predict_penguin_species ⟨mkRat 391 10, mkRat 187 10, 181, 3750⟩ =
      predict_penguin_species ⟨mkRat 391 10, mkRat 187 10, 999, 1⟩ :=
  C9_unused_features ⟨mkRat 391 10, mkRat 187 10, 181, 3750⟩ ⟨mkRat 391 10, mkRat 187 10, 999, 1⟩ rfl rfl

/-- C5: the scenario record {mkRat 391 10, mkRat 187 10, 181, 3750} yields a species that is
one of the artifact's labels and a confidence in [0, 1] (concretely, the mock
answers ("Adelie", mkRat 78 100)). -/
theorem C5_scenario :
    (predict_penguin_species ⟨mkRat 391 10, mkRat 187 10, 181, 3750⟩).species ∈ artifactSpeciesLabels ∧
    0 ≤ (predict_penguin_species ⟨mkRat 391 10, mkRat 187 10, 181, 3750⟩).confidence ∧
    (predict_penguin_species ⟨mkRat 391 10, mkRat 187 10, 181, 3750⟩).confidence ≤ 1 := by
  refine ⟨?_, ?_, ?_⟩ <;> decide

/-- C1 counterexample: the serving input amounts to a 4-element vector while
the training script's persisted schema has 10 columns, yet the endpoint
returns a successful result instead of failing with DimensionMismatch. -/
theorem C1_counterexample :
    (toVector ⟨mkRat 391 10, mkRat 187 10, 181, 3750⟩).length = 4 ∧
    featureColumnsLiteral.length = 10 ∧
    predictEndpoint ⟨mkRat 391 10, mkRat 187 10, 181, 3750⟩ =
      .ok { species := "Adelie", confidence := mkRat 78 100, message := "Prediction successful" } :=
  ⟨rfl, rfl, rfl⟩

/-- C1 amended: the endpoint performs no dimension check against any
feature schema.  It accepts exactly the four boundary-validated
measurements (a 4-element vector, while the training script's schema has
10 columns) and always returns a successful prediction; DimensionMismatch
is never produced. -/
theorem C1_no_dimension_check (f : PenguinFeatures) :
    predictEndpoint f = .ok (predict_penguin_species f) ∧
    (toVector f).length = 4 ∧
    featureColumnsLiteral.length = 10 :=
  ⟨rfl, rfl, rfl⟩

/-- C2 counterexample: a request carrying the unknown categorical value
sex = "unknown" is not rejected with UnknownCategory; the boundary drops
the extra field and the system returns a normal prediction. -/
theorem C2_counterexample :
    handlePredict ⟨mkRat 391 10, mkRat 187 10, 181, 3750, some "unknown"⟩ =
      .ok { species := "Adelie", confidence := mkRat 78 100, message := "Prediction successful" } :=
  rfl

/-- C2 amended: the serving model declares no categorical field, so any
`sex` member of the request body is discarded by the boundary parser: the
response is always a successful prediction and is independent of the sex
value; no UnknownCategory error exists in the code. -/
theorem C2_sex_ignored (a b c d : ℚ) (s1 s2 : Option String) :
    handlePredict ⟨a, b, c, d, s1⟩ = .ok (predict_penguin_species ⟨a, b, c, d⟩) ∧
    handlePredict ⟨a, b, c, d, s1⟩ = handlePredict ⟨a, b, c, d, s2⟩ :=
  ⟨rfl, rfl⟩

/-- C4: the code evaluated at the failing input {mkRat 391 10, mkRat 187 10, 181, 3750}
returns the hard-coded pair ("Adelie", mkRat 78 100); every response's confidence is
one of the three constants mkRat 78 100, mkRat 82 100, mkRat 85 100 (hence within [0, 1]), and no
class-probability distribution is computed anywhere in the serving path. -/
theorem C4_hardcoded_confidence :
    predict_penguin_species ⟨mkRat 391 10, mkRat 187 10, 181, 3750⟩ =
      { species := "Adelie", confidence := mkRat 78 100, message := "Prediction successful" } ∧
    ∀ f : PenguinFeatures,
      (predict_penguin_species f).confidence ∈ ([mkRat 78 100, mkRat 82 100, mkRat 85 100] : List ℚ) ∧
      0 ≤ (predict_penguin_species f).confidence ∧
      (predict_penguin_species f).confidence ≤ 1 := by
  refine ⟨by decide, ?_⟩
  intro f
  unfold predict_penguin_species
  split
  · exact ⟨by decide, by decide, by decide⟩
  · split
    · exact ⟨by decide, by decide, by decide⟩
    · exact ⟨by decide, by decide, by decide⟩

/-- Helper: a successful training run persists exactly the hand-written
column list and the sorted distinct labels of the cleaned dataframe. -/
theorem trainOnCleaned_ok_info {M : Type} (b : Backend M) (df : List Row)
    (out : TrainResult M) (h : trainOnCleaned b df = .ok out) :
    out.info.feature_columns = featureColumnsLiteral ∧
    out.info.species_classes = speciesClasses df := by
  simp only [trainOnCleaned] at h
  split at h
  · cases h
    exact ⟨rfl, rfl⟩
  · cases h

/-- Helper: `distinctSorted` is ascending. -/
theorem distinctSorted_sorted (l : List String) :
    List.Sorted strDataLe (distinctSorted l) :=
  List.sorted_insertionSort strDataLe l.dedup

/-- Helper: `distinctSorted` depends only on the set of values. -/
theorem distinctSorted_eq_of_toFinset_eq {l1 l2 : List String}
    (h : l1.toFinset = l2.toFinset) : distinctSorted l1 = distinctSorted l2 :=
  List.eq_of_perm_of_sorted
    ((List.perm_insertionSort strDataLe l1.dedup).trans
      ((List.toFinset_eq_iff_perm_dedup.mp h).trans
        (List.perm_insertionSort strDataLe l2.dedup).symm))
    (List.sorted_insertionSort strDataLe l1.dedup)
    (List.sorted_insertionSort strDataLe l2.dedup)

/-- C7: the pipeline's output is a function of the cleaned dataframe alone
(two raw datasets with the same surviving rows train identically), the
surviving rows are exactly complete, and they are taken from the raw
dataset unchanged (a sublist - no imputation). -/
theorem C7_drop_incomplete :
    (∀ (M : Type) (b : Backend M) (d1 d2 : List Row),
        d1.filter rowComplete = d2.filter rowComplete →
        train_advanced_model b d1 = train_advanced_model b d2) ∧
    (∀ d : List Row, (d.filter rowComplete).Sublist d ∧
        ∀ r ∈ d.filter rowComplete, rowComplete r = true) := by
  constructor
  · intro M b d1 d2 h
    unfold train_advanced_model
    rw [h]
  · intro d
    exact ⟨List.filter_sublist d, fun r hr => List.of_mem_filter hr⟩

/-- Witness for C7: adding an incomplete row to `dfBasic` leaves the
training result unchanged, and the cleaned rows are a sublist of the raw. -/
theorem C7_witness :
    train_advanced_model backend0 dfBasic =
      train_advanced_model backend0 dfBasicPlusIncomplete ∧
    (List.filter rowComplete dfBasic).Sublist dfBasic :=
  ⟨C7_drop_incomplete.1 Unit backend0 dfBasic dfBasicPlusIncomplete (by decide),
   (C7_drop_incomplete.2 dfBasic).1⟩

/-- C3 counterexample: on a dataset with the extra island category
"Antarctica" the training run succeeds and persists the hand-written
10-column literal, which is not the list of encoded columns actually
present (the indicator column island_Antarctica is present but absent
from the persisted schema). -/
theorem C3_counterexample :
    (train_advanced_model backend0 dfExtraIsland).map (fun o => o.info.feature_columns) =
      .ok featureColumnsLiteral ∧
    "island_Antarctica" ∈ specEnumeratedFeatureColumns (List.filter rowComplete dfExtraIsland) ∧
    (featureColumnsLiteral.contains "island_Antarctica") = false :=
  ⟨by decide, by decide, by decide⟩

/-- C3 amended: every successful training run persists the hand-written
literal `feature_columns` list, independent of which encoded columns the
cleaned dataset actually produced. -/
theorem C3_literal_schema (M : Type) (b : Backend M) (df : List Row)
    (out : TrainResult M) (h : train_advanced_model b df = .ok out) :
    out.info.feature_columns = featureColumnsLiteral := by
  unfold train_advanced_model at h
  exact (trainOnCleaned_ok_info b (List.filter rowComplete df) out h).1

/-- Witness for C3 amended, at the concrete run on `dfBasic`. -/
theorem C3_witness : outBasic.info.feature_columns = featureColumnsLiteral :=
  C3_literal_schema Unit backend0 dfBasic outBasic (by decide)

/-- C6 counterexample: a dataset whose cleaned version has exactly one
distinct species label (fewer than two) trains successfully and persists
the one-element class list, instead of failing with InsufficientClasses. -/
theorem C6_counterexample :
    ((List.filter rowComplete dfOneClass).map rowSpecies).toFinset.card < 2 ∧
    (train_advanced_model backend0 dfOneClass).map (fun o => o.info.species_classes) =
      .ok ["Adelie"] :=
  ⟨by decide, by decide⟩

/-- C6 amended: the training script performs no class-count validation:
every run either succeeds or fails with the KeyError of the hand-written
column selection; InsufficientClasses is never raised. -/
theorem C6_no_class_check (M : Type) (b : Backend M) (df : List Row) :
    (∃ out, train_advanced_model b df = .ok out) ∨
    train_advanced_model b df = .error .keyError := by
  unfold train_advanced_model trainOnCleaned
  split
  · exact .inl ⟨_, rfl⟩
  · exact .inr rfl

/-- C8 counterexample: `dfBasic` and `dfOnlyAdelieComplete` have the same
set of distinct species labels in the raw dataset ({Adelie, Gentoo}),
yet their training runs persist different index-to-label mappings,
because the cleaning step removed the only Gentoo row of the latter. -/
theorem C8_counterexample :
    (dfBasic.map rowSpecies).toFinset = (dfOnlyAdelieComplete.map rowSpecies).toFinset ∧
    (train_advanced_model backend0 dfBasic).map (fun o => o.info.species_classes) =
      .ok ["Adelie", "Gentoo"] ∧
    (train_advanced_model backend0 dfOnlyAdelieComplete).map (fun o => o.info.species_classes) =
      .ok ["Adelie"] :=
  ⟨by decide, by decide, by decide⟩

/-- C8 amended: label indices are a deterministic encoding over the sorted
distinct labels of the cleaned dataset: two successful runs whose cleaned
datasets carry the same set of distinct species labels persist identical
index-to-label mappings, and the persisted index order is ascending
string order. -/
theorem C8_sorted_labels (M : Type) (b : Backend M) (d1 d2 : List Row)
    (o1 o2 : TrainResult M)
    (h1 : train_advanced_model b d1 = .ok o1)
    (h2 : train_advanced_model b d2 = .ok o2)
    (hs : ((List.filter rowComplete d1).map rowSpecies).toFinset =
          ((List.filter rowComplete d2).map rowSpecies).toFinset) :
    o1.info.species_classes = o2.info.species_classes ∧
    List.Sorted strDataLe o1.info.species_classes := by
  unfold train_advanced_model at h1 h2
  have e1 := (trainOnCleaned_ok_info b (List.filter rowComplete d1) o1 h1).2
  have e2 := (trainOnCleaned_ok_info b (List.filter rowComplete d2) o2 h2).2
  rw [e1, e2]
  unfold speciesClasses
  exact ⟨distinctSorted_eq_of_toFinset_eq hs, distinctSorted_sorted _⟩

/-- Witness for C8 amended, at the concrete run on `dfBasic`. -/
theorem C8_witness :
    outBasic.info.species_classes = outBasic.info.species_classes ∧
    List.Sorted strDataLe outBasic.info.species_classes :=
  C8_sorted_labels Unit backend0 dfBasic dfBasic outBasic outBasic
    (by decide) (by decide) rfl
